import Mathlib

/-!
Verification of the crawler core of the Web-Analytics repository.

Shallow embedding of the Python sources:
  src/crawler/blocking_detector.py
  src/crawler/base_crawler.py
  src/crawler/crawl_manager.py
  src/crawler/parsers/base_parser.py and html_parser.py
  src/crawler/scheduler.py
  src/storage/mongo.py and models.py

External effects (HTTP exchanges, BeautifulSoup queries, regexes over bodies)
enter the embedding as explicit oracle parameters; all control flow, state
updates and data handling are translated statement by statement from the
Python source.
-/

namespace WA

/-! ### blocking_detector.py -/

/-- Result dictionary built by BlockingDetector.detect_all. -/
structure BlockResult where
  blocked : Bool
  block_type : Option String
  http_block : Option String
  captcha_detected : Bool
  ip_ban_detected : Bool
  status_code : Nat
deriving Repr, DecidableEq

/-- BlockingDetector.BLOCK_STATUS_CODES. -/
def BLOCK_STATUS_CODES : List Nat := [403, 429, 503]

/-- BlockingDetector.detect_http_block: maps a status code to a block label. -/
def detect_http_block (status_code : Nat) : Option String :=
  if status_code = 403 then some "HTTP_403_FORBIDDEN"
  else if status_code = 429 then some "HTTP_429_RATE_LIMIT"
  else if status_code = 503 then some "HTTP_503_SERVICE_UNAVAILABLE"
  else if status_code ∈ BLOCK_STATUS_CODES then
    some ("HTTP_" ++ toString status_code ++ "_BLOCKED")
  else none

/-- BlockingDetector.detect_captcha: the regex search and the BeautifulSoup DOM
queries over the decoded body are abstracted as the Boolean oracle captchaHit;
the try/except wrapper only ever yields a Boolean as well. -/
def detect_captcha (captchaHit : String → String → Bool) (content url : String) : Bool :=
  captchaHit content url

/-- BlockingDetector.detect_ip_ban: status 429 returns True immediately;
otherwise the ip_ban_regex search over the decoded body is the oracle ipBanHit. -/
def detect_ip_ban (ipBanHit : String → Bool) (content : String) (status_code : Nat) : Bool :=
  if status_code = 429 then true
  else ipBanHit content

/-- Python expression (x or y) for the block_type field: block_type is either
None or one of the nonempty label strings, so (x or y) keeps x when set. -/
def orKeep (x : Option String) (y : String) : Option String :=
  match x with
  | some v => some v
  | none => some y

/-- BlockingDetector.detect_all: runs the HTTP, CAPTCHA and IP-ban checks in
order, accumulating into the results dictionary exactly as the source does. -/
def detect_all (captchaHit : String → String → Bool) (ipBanHit : String → Bool)
    (content : String) (status_code : Nat) (url : String) : BlockResult :=
  let results : BlockResult :=
    { blocked := false, block_type := none, http_block := none,
      captcha_detected := false, ip_ban_detected := false, status_code := status_code }
  let results :=
    match detect_http_block status_code with
    | some hb =>
      { results with blocked := true, http_block := some hb, block_type := some hb }
    | none => results
  let results :=
    if detect_captcha captchaHit content url then
      { results with
          blocked := true, captcha_detected := true,
          block_type := orKeep results.block_type "CAPTCHA" }
    else results
  let results :=
    if detect_ip_ban ipBanHit content status_code then
      { results with
          blocked := true, ip_ban_detected := true,
          block_type := orKeep results.block_type "IP_BAN" }
    else results
  results

/-! ### base_crawler.py -/

/-- Outcome of the session.get call inside BaseCrawler.fetch: either a
requests.RequestException was raised before a response was delivered
(connection error, timeout, or the retry adapter exhausting its attempts),
or an HTTP response with a status code and body bytes came back. -/
inductive GetOutcome where
  | raised
  | response (status_code : Nat) (content : List Nat)
deriving Repr, DecidableEq

/-- BaseCrawler.fetch. The robots check (respect_robots and can_fetch) is the
Boolean robotsAllowed; the session.get call is its GetOutcome. The source then
calls response.raise_for_status(), which raises requests.HTTPError exactly when
the status is 4xx or 5xx; the except requests.RequestException branch catches
that and returns None. The declared return type is Optional bytes: the Except
layer carries only the robots ValueError. -/
def fetch (robotsAllowed : Bool) (get : GetOutcome) : Except String (Option (List Nat)) :=
  if robotsAllowed = false then
    Except.error "Robots.txt disallows fetching"
  else
    match get with
    | GetOutcome.raised => Except.ok none
    | GetOutcome.response status_code content =>
      if 400 ≤ status_code ∧ status_code < 600 then Except.ok none
      else Except.ok (some content)

/-! ### storage/models.py -/

/-- CrawlStatus enum. -/
inductive CrawlStatus where
  | idle | running | completed | failed | paused | blocked
deriving Repr, DecidableEq

/-- ContentType enum. -/
inductive ContentType where
  | html | rss | pdf | txt | twitter | reddit | youtube | linkedin
deriving Repr, DecidableEq

/-- CrawlConfig model with its defaults; retry_policy is a small int map. -/
structure CrawlConfig where
  frequency : String := "0 0 * * *"
  max_hits : Nat := 100
  enabled : Bool := true
  follow_links : Bool := false
  max_depth : Nat := 1
  rate_limit_per_minute : Nat := 30
  retry_policy : List (String × Nat) :=
    [("max_retries", 3), ("backoff_factor", 2), ("timeout", 30)]
deriving Repr, DecidableEq

/-- Source model. Wall-clock fields (created_at, updated_at, last_crawl) are
outside a shallow embedding; last_crawl is kept as the flag saying whether the
field has been stamped, which is all the crawl manager writes to it. -/
structure SourceRec where
  id : String
  name : String
  url : String
  project_id : Option String := none
  content_type : ContentType
  config : CrawlConfig := {}
  status : CrawlStatus := CrawlStatus.idle
  last_crawl_set : Bool := false
  last_error : Option String := none
  total_documents : Nat := 0
deriving Repr, DecidableEq

/-- DocumentMetadata model; publish_date kept as its ISO string. -/
structure DocumentMetadata where
  title : Option String := none
  author : Option String := none
  publish_date : Option String := none
  language : Option String := none
  word_count : Nat := 0
  keywords : List String := []
  custom : List (String × String) := []
deriving Repr, DecidableEq

/-- Document model (crawled_at, a wall-clock stamp, omitted). -/
structure Document where
  url : String
  source_id : String
  content_type : ContentType
  raw_content : String
  cleaned_text : String
  metadata : DocumentMetadata := {}
  crawl_config_snapshot : CrawlConfig := {}
deriving Repr, DecidableEq

/-- CrawlStats model (wall-clock fields started_at, completed_at and
duration_seconds omitted). -/
structure CrawlStatsRec where
  source_id : String
  pages_crawled : Nat := 0
  pages_failed : Nat := 0
  bytes_downloaded : Nat := 0
  errors : List String := []
deriving Repr, DecidableEq

/-- Project model (only the fields the embedded operations touch). -/
structure ProjectRec where
  id : String
  name : String
deriving Repr, DecidableEq

/-! ### storage/mongo.py -/

/-- The four MongoDB collections, as lists of records. -/
structure DB where
  projects : List ProjectRec := []
  sources : List SourceRec := []
  documents : List Document := []
  crawl_stats : List CrawlStatsRec := []
deriving Repr, DecidableEq

/-- bson ObjectId(s) succeeds exactly on 24-character hex strings; the
except InvalidId branches of mongo.py fire on everything else. -/
def isValidObjectId (s : String) : Bool :=
  s.length == 24 && s.toList.all (fun c => "0123456789abcdefABCDEF".toList.contains c)

/-- MongoDBManager.get_source: find_one on sources by id. -/
def get_source (db : DB) (source_id : String) : Option SourceRec :=
  if isValidObjectId source_id then
    db.sources.find? (fun s => s.id == source_id)
  else none

/-- A set of fields passed to MongoDBManager.update_source; a missing field is
left unchanged, last_error carries an explicit double Option so that setting
the field to None is distinct from not setting it. -/
structure SrcUpdate where
  status : Option CrawlStatus := none
  last_crawl_set : Bool := false
  last_error : Option (Option String) := none
  total_documents : Option Nat := none
deriving Repr, DecidableEq

/-- Application of one update dictionary to a source record. -/
def applySrcUpdate (s : SourceRec) (u : SrcUpdate) : SourceRec :=
  { s with
      status := u.status.getD s.status,
      last_crawl_set := s.last_crawl_set || u.last_crawl_set,
      last_error := u.last_error.getD s.last_error,
      total_documents := u.total_documents.getD s.total_documents }

/-- MongoDBManager.update_source: update_one with a set-dictionary; the Boolean
result approximates modified_count greater than zero by a match test. -/
def update_source (db : DB) (source_id : String) (u : SrcUpdate) : Bool × DB :=
  if isValidObjectId source_id then
    (db.sources.any (fun s => s.id == source_id),
     { db with
         sources := db.sources.map
           (fun s => if s.id == source_id then applySrcUpdate s u else s) })
  else (false, db)

/-- MongoDBManager.create_document: insert_one under the unique index on
(url, source_id); a DuplicateKeyError is caught and None returned, leaving the
collection unchanged. -/
def create_document (db : DB) (d : Document) : Option String × DB :=
  if db.documents.any (fun e => e.url == d.url && e.source_id == d.source_id) then
    (none, db)
  else
    (some "new-object-id", { db with documents := db.documents ++ [d] })

/-- MongoDBManager.delete_project: delete_many on sources with this
project_id, then delete_one on the project. Documents and crawl_stats are not
touched by the source. -/
def delete_project (db : DB) (project_id : String) : Bool × DB :=
  if isValidObjectId project_id then
    let db1 :=
      { db with
          sources := db.sources.filter (fun s => !(s.project_id == some project_id)) }
    ((db1.projects.any (fun p => p.id == project_id)),
     { db1 with projects := db1.projects.filter (fun p => !(p.id == project_id)) })
  else (false, db)

/-- MongoDBManager.delete_source: delete_many on documents with this
source_id, then delete_one on the source. The crawl_stats collection is not
touched by the source. -/
def delete_source (db : DB) (source_id : String) : Bool × DB :=
  if isValidObjectId source_id then
    let db1 :=
      { db with
          documents := db.documents.filter (fun d => !(d.source_id == source_id)) }
    ((db1.sources.any (fun s => s.id == source_id)),
     { db1 with sources := db1.sources.filter (fun s => !(s.id == source_id)) })
  else (false, db)

/-- MongoDBManager.save_crawl_stats: insert_one into crawl_stats. -/
def save_crawl_stats (db : DB) (stats : CrawlStatsRec) : DB :=
  { db with crawl_stats := db.crawl_stats ++ [stats] }

/-- MongoDBManager.count_documents restricted to a source_id filter. -/
def count_documents (db : DB) (source_id : String) : Nat :=
  (db.documents.filter (fun d => d.source_id == source_id)).length

/-! ### parsers/base_parser.py -/

/-- ParserResult: its init in base_parser.py assigns exactly the attributes
url, content_type, raw_content, cleaned_text, title, author, publish_date,
language, word_count and custom_metadata, and no others. -/
structure ParserResult where
  url : String
  content_type : String
  raw_content : String
  cleaned_text : String
  title : Option String := none
  author : Option String := none
  publish_date : Option String := none
  language : Option String := none
  word_count : Nat := 0
  custom_metadata : List (String × String) := []
deriving Repr, DecidableEq

/-- The guard hasattr(result, "next_page") and result.next_page used by
CrawlManager._crawl_traditional. ParserResult.__init__ never assigns a
next_page attribute (html_parser.py stores the detected URL inside
custom_metadata instead), so hasattr is False on every ParserResult and the
whole conjunction is never truthy: the guard yields no URL. -/
def result_next_page (_ : ParserResult) : Option String := none

/-- The guard hasattr(result, "items") used by
CrawlManager._crawl_social_media. ParserResult.__init__ never assigns an
items attribute, so the guard is False and the single-result branch runs. -/
def result_has_items (_ : ParserResult) : Bool := false

/-! ### parsers/html_parser.py, _detect_next_page -/

/-- One anchor tag of the parsed page, with the attributes the pagination
patterns inspect. cls stands for the class attribute. -/
structure Anchor where
  rel : Option String := none
  cls : Option String := none
  id : Option String := none
  href : Option String := none
deriving Repr, DecidableEq

/-- Boolean infix test over character lists: some tail starts with pat. -/
def isInfixOfB (pat : List Char) : List Char → Bool
  | [] => pat.isPrefixOf []
  | c :: cs => pat.isPrefixOf (c :: cs) || isInfixOfB pat cs

/-- re.compile of the pattern next with re.IGNORECASE, used with re.search:
the attribute value contains the letters next case-insensitively. -/
def containsNextCI (s : String) : Bool :=
  isInfixOfB (String.toList "next") (s.toList.map Char.toLower)

/-- The character run of the scheme separator. -/
def schemeSep : List Char := [':', '/', '/']

/-- Split a URL at its first scheme separator, when it has one. -/
def schemeSplit : List Char → Option (List Char × List Char)
  | [] => none
  | c :: cs =>
    if schemeSep.isPrefixOf (c :: cs) then some ([], (c :: cs).drop 3)
    else
      match schemeSplit cs with
      | some (pre, post) => some (c :: pre, post)
      | none => none

/-- The authority of a URL remainder: everything before its first slash. -/
def hostChars : List Char → List Char
  | [] => []
  | c :: cs => if c = sl then [] else c :: hostChars cs
where
  sl : Char := '/'

/-- urllib.parse.urljoin for the one case _detect_next_page uses it: a
root-relative href joined onto an absolute base URL with a single scheme
separator, giving the scheme and authority of the base followed by the
href; any other base shape leaves the href alone. -/
def urljoin (base href : String) : String :=
  match schemeSplit base.toList with
  | some (scheme, rest) =>
    if isInfixOfB schemeSep rest then href
    else String.mk (scheme ++ schemeSep ++ hostChars rest ++ href.toList)
  | none => href

/-- The three pagination patterns of _detect_next_page, in their order:
rel equal to next, then class matching next case-insensitively, then id
matching next case-insensitively. -/
def next_patterns : List (Anchor → Bool) :=
  [fun a => a.rel == some "next",
   fun a => (a.cls.map containsNextCI).getD false,
   fun a => (a.id.map containsNextCI).getD false]

/-- Inner loop of HTMLParser._detect_next_page over the pattern list: the
first anchor matching the pattern is taken; a missing or empty href, or an
href that is neither root-relative nor http-prefixed, falls through to the
next pattern. -/
def detect_next_page_go (anchors : List Anchor) (current_url : String) :
    List (Anchor → Bool) → Option String
  | [] => none
  | p :: ps =>
    match anchors.find? p with
    | some link =>
      match link.href with
      | some href =>
        if href.toList = [] then detect_next_page_go anchors current_url ps
        else if [hostChars.sl].isPrefixOf href.toList then
          some (urljoin current_url href)
        else if (String.toList "http").isPrefixOf href.toList then some href
        else detect_next_page_go anchors current_url ps
      | none => detect_next_page_go anchors current_url ps
    | none => detect_next_page_go anchors current_url ps

/-- HTMLParser._detect_next_page over the anchors of the page. -/
def detect_next_page (anchors : List Anchor) (current_url : String) : Option String :=
  detect_next_page_go anchors current_url next_patterns

/-! ### crawler/crawl_manager.py -/

/-- Response as CrawlManager._crawl_traditional reads it: an object carrying
content and status_code. The body is kept as its decoded string; len of it is
the byte count used for bytes_downloaded. (BaseCrawler.fetch actually returns
bare Optional bytes — that mismatch is the subject of the fetch theorems.) -/
structure Response where
  content : String
  status_code : Nat
deriving Repr, DecidableEq

/-- The external effects of one crawl run: the fetcher, the content-type
dispatched parser (none models a parser exception, caught per page), the two
body oracles of the blocking detector, and non-duplicate insert_one failures
inside _store_document (re-raised there, caught per result by the store
loop). -/
structure CrawlEnv where
  fetchUrl : String → Option Response
  parse : ContentType → String → String → Option ParserResult
  captchaHit : String → String → Bool
  ipBanHit : String → Bool
  store_raises : ParserResult → Bool

/-- Python str(x) of the block_type field when interpolated into the
Blocked message. -/
def pyStrOpt : Option String → String
  | some s => s
  | none => "None"

/-- Outcome of the crawl phase: the threaded database, the collected parser
results, the statistics, and the update_source dictionaries written during
the phase (the blocked transition, when it fires). -/
structure TradOutcome where
  db : DB
  results : List ParserResult
  stats : CrawlStatsRec
  updates : List SrcUpdate := []
deriving Repr, DecidableEq

/-- CrawlManager._crawl_traditional, fuel-bounded. Each iteration pops one
URL; a visited URL is skipped; a falsy fetch result counts pages_failed; a
blocked detection writes the BLOCKED status with its last_error, appends the
error and breaks; a parser exception counts pages_failed and appends the
error; otherwise the result is appended, the URL marked visited,
bytes_downloaded accumulated, and a next_page enqueued when follow_links is
set, the guard yields one and it is not yet visited. time.sleep is a
wall-clock effect with no state. -/
def crawl_traditional_loop (env : CrawlEnv) (source : SourceRec) :
    Nat → DB → List String → List String → List ParserResult → CrawlStatsRec →
    TradOutcome
  | 0, db, _, _, results, stats =>
    { db := db, results := results, stats := stats }
  | _ + 1, db, [], _, results, stats =>
    { db := db, results := results, stats := stats }
  | fuel + 1, db, url :: rest, visited, results, stats =>
    if results.length < source.config.max_hits then
      if url ∈ visited then
        crawl_traditional_loop env source fuel db rest visited results stats
      else
        match env.fetchUrl url with
        | none =>
          crawl_traditional_loop env source fuel db rest visited results
            { stats with pages_failed := stats.pages_failed + 1 }
        | some response =>
          let block_result :=
            detect_all env.captchaHit env.ipBanHit response.content
              response.status_code url
          if block_result.blocked then
            let msg := "Blocked: " ++ pyStrOpt block_result.block_type
            let u : SrcUpdate :=
              { status := some CrawlStatus.blocked, last_error := some (some msg) }
            { db := (update_source db source.id u).2,
              results := results,
              stats := { stats with errors := stats.errors ++ [msg] },
              updates := [u] }
          else
            match env.parse source.content_type response.content url with
            | none =>
              crawl_traditional_loop env source fuel db rest visited results
                { stats with
                    pages_failed := stats.pages_failed + 1,
                    errors := stats.errors ++ [url ++ ": parse error"] }
            | some result =>
              let visited2 := url :: visited
              let toVisit2 :=
                match (if source.config.follow_links then
                         result_next_page result else none) with
                | some np => if np ∈ visited2 then rest else rest ++ [np]
                | none => rest
              crawl_traditional_loop env source fuel db toVisit2 visited2
                (results ++ [result])
                { stats with
                    bytes_downloaded :=
                      stats.bytes_downloaded + response.content.length }
    else
      { db := db, results := results, stats := stats }

/-- Entry into the traditional loop: to_visit starts as the source URL,
visited and results empty. A run performs at most one iteration per initial
URL plus one per appended result, so max_hits + 2 fuel is never exhausted. -/
def crawl_traditional (env : CrawlEnv) (source : SourceRec) (db : DB)
    (stats : CrawlStatsRec) : TradOutcome :=
  crawl_traditional_loop env source (source.config.max_hits + 2) db
    [source.url] [] [] stats

/-- The platform dispatch of CrawlManager._crawl_social_media: the reddit
branch passes an empty dict instead of the body (modelled as the empty
string), every other platform parses the fetched body. -/
def social_parse (env : CrawlEnv) (source : SourceRec) (response : Response) :
    Option ParserResult :=
  match source.content_type with
  | ContentType.reddit => env.parse ContentType.reddit "" source.url
  | ct => env.parse ct response.content source.url

/-- CrawlManager._crawl_social_media. One fetch of the source URL; a falsy
result counts pages_failed and returns the empty list early. Otherwise
bytes_downloaded accumulates and the platform parser runs. A parser exception
lands in the except branch: pages_failed plus an error, and the empty result
list reaches the final truncation. ParserResult has no items attribute, so
every platform branch appends the single truthy result; the final statement
truncates to max_hits. -/
def crawl_social_media (env : CrawlEnv) (source : SourceRec)
    (stats : CrawlStatsRec) : List ParserResult × CrawlStatsRec :=
  match env.fetchUrl source.url with
  | none => ([], { stats with pages_failed := stats.pages_failed + 1 })
  | some response =>
    let stats := { stats with
        bytes_downloaded := stats.bytes_downloaded + response.content.length }
    match social_parse env source response with
    | none =>
      (([] : List ParserResult).take source.config.max_hits,
       { stats with
           pages_failed := stats.pages_failed + 1,
           errors := stats.errors ++ ["Social media error"] })
    | some result =>
      let results :=
        if result_has_items result then []
        else [result]
      (results.take source.config.max_hits, stats)

/-- CrawlManager._store_document: builds the Document out of the
ParserResult.to_dict dictionary and the current config snapshot, then
create_document. create_document absorbs the duplicate key case into a None
id; a non-duplicate insert failure re-raises out of _store_document, modelled
by the none return. -/
def store_document (env : CrawlEnv) (source : SourceRec) (db : DB)
    (result : ParserResult) : Option DB :=
  if env.store_raises result then none
  else
    let document : Document :=
      { url := result.url,
        source_id := source.id,
        content_type := source.content_type,
        raw_content := result.raw_content,
        cleaned_text := result.cleaned_text,
        metadata :=
          { title := result.title,
            author := result.author,
            publish_date := result.publish_date,
            language := result.language,
            word_count := result.word_count,
            keywords := [],
            custom := result.custom_metadata },
        crawl_config_snapshot := source.config }
    some (create_document db document).2

/-- Store phase of CrawlManager.crawl_source: for each result, break once
stats.pages_crawled has reached max_hits; a _store_document exception counts
pages_failed and appends the error; otherwise documents_stored and
pages_crawled both advance — also when the insert was a duplicate no-op.
Returns the database, documents_stored and the statistics. -/
def store_loop (env : CrawlEnv) (source : SourceRec) :
    List ParserResult → DB → Nat → CrawlStatsRec → DB × Nat × CrawlStatsRec
  | [], db, stored, stats => (db, stored, stats)
  | result :: rest, db, stored, stats =>
    if source.config.max_hits ≤ stats.pages_crawled then (db, stored, stats)
    else
      match store_document env source db result with
      | some db2 =>
        store_loop env source rest db2 (stored + 1)
          { stats with pages_crawled := stats.pages_crawled + 1 }
      | none =>
        store_loop env source rest db stored
          { stats with
              pages_failed := stats.pages_failed + 1,
              errors := stats.errors ++ ["store error"] }

/-- The store phase of crawl_source applied to the outcome of the crawl
phase: documents_stored and pages_crawled both start at zero. -/
def run_store (env : CrawlEnv) (source : SourceRec) (out : TradOutcome) :
    DB × Nat × CrawlStatsRec :=
  store_loop env source out.results out.db 0 out.stats

/-- Result of one CrawlManager.crawl_source run: the final database, the
returned statistics, the documents_stored counter, and the update_source
dictionaries written against the source over the run, in order. -/
structure RunResult where
  db : DB
  stats : CrawlStatsRec
  documents_stored : Nat
  updates : List SrcUpdate
deriving Repr, DecidableEq

/-- CrawlManager.crawl_source. Load the source (ValueError when missing);
write status RUNNING with the last_crawl stamp; dispatch the twitter, reddit
and youtube content types to the social path and every other content type to
the traditional loop; run the store phase; then unconditionally write status
COMPLETED with the accumulated total_documents and last_error None, and
persist the statistics record. Database operations are modelled as
non-raising, so the except branch writing FAILED is not reachable here; every
per-page and per-result exception is already absorbed by the inner
handlers. -/
def crawl_source (env : CrawlEnv) (db : DB) (source_id : String) :
    Except String RunResult :=
  match get_source db source_id with
  | none => Except.error ("Source not found: " ++ source_id)
  | some source =>
    let stats : CrawlStatsRec := { source_id := source_id }
    let u1 : SrcUpdate :=
      { status := some CrawlStatus.running, last_crawl_set := true }
    let db1 := (update_source db source_id u1).2
    let crawlOut : TradOutcome :=
      if source.content_type ∈
          [ContentType.twitter, ContentType.reddit, ContentType.youtube] then
        { db := db1,
          results := (crawl_social_media env source stats).1,
          stats := (crawl_social_media env source stats).2 }
      else
        crawl_traditional env source db1 stats
    let stp := run_store env source crawlOut
    let stored := stp.2.1
    let u2 : SrcUpdate :=
      { status := some CrawlStatus.completed,
        total_documents := some (source.total_documents + stored),
        last_error := some none }
    let db3 := (update_source stp.1 source_id u2).2
    let db4 := save_crawl_stats db3 stp.2.2
    Except.ok
      { db := db4, stats := stp.2.2, documents_stored := stored,
        updates := [u1] ++ crawlOut.updates ++ [u2] }

/-! ### crawler/scheduler.py -/

/-- Scheduler state: active_crawls is the process-local dictionary (a listed
id stands for a True entry), running is the set of in-flight _execute_crawl
invocations, and pending collects the one-shot jobs enqueued by
trigger_source_crawl before the job runtime fires them. -/
structure SchedState where
  active_crawls : List String := []
  running : List String := []
  pending : List String := []
deriving Repr, DecidableEq

/-- CrawlScheduler.trigger_source_crawl: rejected with False when
active_crawls holds the id; otherwise a one-shot job is enqueued and True
returned. The source store is never consulted. -/
def trigger_source_crawl (s : SchedState) (source_id : String) :
    Bool × SchedState :=
  if s.active_crawls.contains source_id then (false, s)
  else (true, { s with pending := source_id :: s.pending })

/-- Progress of one _crawl_job invocation through the function body, at the
granularity of its individual operations on the shared dictionary: about to
execute the guard read active_crawls.get(source_id, False); past a False
guard read, about to execute the mark write active_crawls[source_id] = True;
mark written and _execute_crawl in progress; returned (skipped by the guard,
or completed with the finally block executed). The guard read and the mark
write are two separate statements on an unlocked dict, and distinct jobs run
on distinct APScheduler worker threads, so other jobs may interleave between
them. -/
inductive JobPhase where
  | atCheck
  | atMark
  | inCrawl
  | done
deriving Repr, DecidableEq

/-- One _crawl_job invocation in the worker pool: its source and its
progress. -/
structure Job where
  source_id : String
  phase : JobPhase
deriving Repr, DecidableEq

/-- Scheduler runtime state at dictionary-operation granularity: the
active_crawls dictionary (a listed id stands for a True entry, kept
duplicate-free like dict keys) and the job invocations in the pool. -/
structure SchedPool where
  active_crawls : List String := []
  jobs : List Job := []
deriving Repr, DecidableEq

/-- The next atomic operation of the job at index i of the pool, as the
source orders them inside _crawl_job and _execute_crawl: the guard read
(return when True, proceed when False), the mark write (idempotent dict
assignment of True), and the finally-block clear (assignment of False,
whether the run succeeded or failed). An index naming no job, or a finished
job, changes nothing. -/
def pool_step (s : SchedPool) (i : Nat) : SchedPool :=
  match s.jobs[i]? with
  | none => s
  | some j =>
    match j.phase with
    | JobPhase.atCheck =>
      if j.source_id ∈ s.active_crawls then
        { s with jobs := s.jobs.set i { j with phase := JobPhase.done } }
      else
        { s with jobs := s.jobs.set i { j with phase := JobPhase.atMark } }
    | JobPhase.atMark =>
      { s with
          active_crawls :=
            if j.source_id ∈ s.active_crawls then s.active_crawls
            else j.source_id :: s.active_crawls,
          jobs := s.jobs.set i { j with phase := JobPhase.inCrawl } }
    | JobPhase.inCrawl =>
      { s with
          active_crawls := s.active_crawls.erase j.source_id,
          jobs := s.jobs.set i { j with phase := JobPhase.done } }
    | JobPhase.done => s

/-- An interleaving of the pool: at each step the scheduled thread performs
its next atomic operation. -/
def run_pool (s : SchedPool) (sched : List Nat) : SchedPool :=
  sched.foldl pool_step s

/-! ### storage/mongo.py, _generate_snippet -/

/-- Python str.lower over the character list model of a string. -/
def lowerChars (l : List Char) : List Char := l.map Char.toLower

/-- Accumulator pass of Python str.split with no separator: whitespace runs
separate tokens and produce no empty tokens. -/
def splitWsAux : List Char → List Char → List (List Char)
  | [], acc => if acc = [] then [] else [acc.reverse]
  | c :: cs, acc =>
    if c.isWhitespace then
      if acc = [] then splitWsAux cs []
      else acc.reverse :: splitWsAux cs []
    else splitWsAux cs (c :: acc)

/-- Python str.split() on whitespace. -/
def splitWs (l : List Char) : List (List Char) := splitWsAux l []

/-- Python str.find: index of the first occurrence of pat in t, none when
absent (the -1 branch). -/
def strFind : List Char → List Char → Option Nat
  | t@([]), pat => if pat.isPrefixOf t then some 0 else none
  | t@(_ :: t2), pat =>
    if pat.isPrefixOf t then some 0
    else (strFind t2 pat).map (fun n => n + 1)

/-- The best_pos scan of _generate_snippet: over the keyword list, keep the
smallest found position. -/
def best_pos (text_lower : List Char) : List (List Char) → Option Nat → Option Nat
  | [], best => best
  | kw :: kws, best =>
    best_pos text_lower kws
      (match strFind text_lower kw with
       | none => best
       | some pos =>
         match best with
         | none => some pos
         | some b => if pos < b then some pos else some b)

/-- The three-dot ellipsis appended and prepended on truncation. -/
def dots : List Char := ['.', '.', '.']

/-- MongoDBManager._generate_snippet over the character-list model: empty
text gives the empty snippet; with no keyword found the head of the text
plus a trailing ellipsis when truncated; otherwise a window of max_length//2
characters each side of the earliest keyword position, clamped to the text,
with an ellipsis at each truncated end. -/
def generate_snippet (text keywords : List Char) (max_length : Nat) : List Char :=
  if text = [] then []
  else
    let keywords_list := splitWs (lowerChars keywords)
    let text_lower := lowerChars text
    match best_pos text_lower keywords_list none with
    | none =>
      text.take max_length ++ (if max_length < text.length then dots else [])
    | some p =>
      let start := p - max_length / 2
      let stop := min text.length (p + max_length / 2)
      let snippet := (text.drop start).take (stop - start)
      let snippet := if 0 < start then dots ++ snippet else snippet
      let snippet := if stop < text.length then snippet ++ dots else snippet
      snippet

/-! ### Concrete scenarios used by the theorems -/

/-- A project owning one source, which owns one document and one stats
record. -/
def pidC5 : String := "aaaa5555aaaa5555aaaa5555"

def sidC5 : String := "bbbb5555bbbb5555bbbb5555"

def projC5 : ProjectRec := { id := pidC5, name := "P" }

def srcC5 : SourceRec :=
  { id := sidC5, name := "S1", url := "http://s1.example/",
    project_id := some pidC5, content_type := ContentType.html }

def docC5 : Document :=
  { url := "http://s1.example/", source_id := sidC5,
    content_type := ContentType.html, raw_content := "r", cleaned_text := "c" }

def statC5 : CrawlStatsRec := { source_id := sidC5 }

def dbC5 : DB :=
  { projects := [projC5], sources := [srcC5], documents := [docC5],
    crawl_stats := [statC5] }

/-- Scenario: the single crawled page is already present in the documents
collection under the same (url, source_id) key. -/
def sidC2 : String := "cccc2222cccc2222cccc2222"

def srcC2 : SourceRec :=
  { id := sidC2, name := "S", url := "http://dup.example/",
    content_type := ContentType.html, config := { max_hits := 5 } }

def resC2 : ParserResult :=
  { url := "http://dup.example/", content_type := "html",
    raw_content := "r", cleaned_text := "c" }

/-- The document _store_document builds from resC2 under srcC2. -/
def docC2 : Document :=
  { url := "http://dup.example/", source_id := sidC2,
    content_type := ContentType.html, raw_content := "r", cleaned_text := "c",
    crawl_config_snapshot := { max_hits := 5 } }

def envC2 : CrawlEnv :=
  { fetchUrl := fun u =>
      if u == "http://dup.example/" then
        some { content := "body", status_code := 200 }
      else none,
    parse := fun _ _ _ => some resC2,
    captchaHit := fun _ _ => false,
    ipBanHit := fun _ => false,
    store_raises := fun _ => false }

def dbC2 : DB := { sources := [srcC2], documents := [docC2] }

/-! C6 witness scenario: one clean page, max_hits three. -/

def sidC6 : String := "ffff6666ffff6666ffff6666"

def srcC6 : SourceRec :=
  { id := sidC6, name := "S", url := "http://ok.example/",
    content_type := ContentType.html, config := { max_hits := 3 } }

def envC6 : CrawlEnv :=
  { fetchUrl := fun u =>
      if u == "http://ok.example/" then
        some { content := "b", status_code := 200 }
      else none,
    parse := fun _ _ u =>
      some { url := u, content_type := "html", raw_content := "b",
             cleaned_text := "t" },
    captchaHit := fun _ _ => false,
    ipBanHit := fun _ => false,
    store_raises := fun _ => false }

def dbC6 : DB := { sources := [srcC6] }

/-- The run result of the C6 scenario. -/
def rC6 : RunResult :=
  match crawl_source envC6 dbC6 sidC6 with
  | Except.ok r => r
  | Except.error _ =>
    { db := {}, stats := { source_id := "" }, documents_stored := 0,
      updates := [] }

/-- Scenario: the first (and only) fetch of the run comes back with HTTP
status 429. -/
def sidC1 : String := "dddd1111dddd1111dddd1111"

def srcC1 : SourceRec :=
  { id := sidC1, name := "S", url := "http://blocked.example/",
    content_type := ContentType.html }

def envC1 : CrawlEnv :=
  { fetchUrl := fun u =>
      if u == "http://blocked.example/" then
        some { content := "x", status_code := 429 }
      else none,
    parse := fun _ _ _ => none,
    captchaHit := fun _ _ => false,
    ipBanHit := fun _ => false,
    store_raises := fun _ => false }

def dbC1 : DB := { sources := [srcC1] }

/-- Scenario: page one links to page two through a rel next anchor;
follow_links is on, max_hits is ten, and both pages fetch and parse
cleanly. -/
def sidC4 : String := "eeee4444eeee4444eeee4444"

def page1C4 : String := "http://pages.example/"

def page2C4 : String := "http://pages.example/page2"

def res1C4 : ParserResult :=
  { url := page1C4, content_type := "html", raw_content := "p1",
    cleaned_text := "c1", custom_metadata := [("next_page", page2C4)] }

def res2C4 : ParserResult :=
  { url := page2C4, content_type := "html", raw_content := "p2",
    cleaned_text := "c2" }

def srcC4 : SourceRec :=
  { id := sidC4, name := "S", url := page1C4,
    content_type := ContentType.html,
    config := { follow_links := true, max_hits := 10 } }

def envC4 : CrawlEnv :=
  { fetchUrl := fun u =>
      if u == page1C4 then some { content := "b1", status_code := 200 }
      else if u == page2C4 then some { content := "b2", status_code := 200 }
      else none,
    parse := fun _ content _ =>
      if content == "b1" then some res1C4
      else if content == "b2" then some res2C4
      else none,
    captchaHit := fun _ _ => false,
    ipBanHit := fun _ => false,
    store_raises := fun _ => false }

def dbC4 : DB := { sources := [srcC4] }

/-- The rel next anchor of page one, with its root-relative href. -/
def anchorC4 : Anchor := { rel := some "next", href := some "/page2" }

/-- Two job invocations for the same source sitting at the guard read, over
an empty active_crawls dictionary: a cron fire and a manual trigger job
dispatched to two worker threads. -/
def poolRace0 : SchedPool :=
  { active_crawls := [],
    jobs := [{ source_id := "a", phase := JobPhase.atCheck },
             { source_id := "a", phase := JobPhase.atCheck }] }

/-- Trivial oracle set for the C10 witness. -/
def envC10 : CrawlEnv :=
  { fetchUrl := fun _ => none,
    parse := fun _ _ _ => none,
    captchaHit := fun _ _ => false,
    ipBanHit := fun _ => false,
    store_raises := fun _ => false }

/-- The C9 witness text, query and no-hit query. -/
def textC9 : List Char := String.toList "abcdef"

def kwC9 : List Char := String.toList "CD"

def kwNoC9 : List Char := String.toList "zz"

/-! ### Theorems for the blocking detector and the fetcher -/

/-- C7: for every body and url (and any body-level captcha / ip-ban oracles),
detect_all at status 429 reports blocked with the http_block flag set to
HTTP_429_RATE_LIMIT, the ip_ban flag set, and block_type HTTP_429_RATE_LIMIT,
the HTTP classification taking precedence while both flags coexist. -/
theorem C7_detect_all_429 (captchaHit : String → String → Bool)
    (ipBanHit : String → Bool) (content url : String) :
    (detect_all captchaHit ipBanHit content 429 url).blocked = true ∧
    (detect_all captchaHit ipBanHit content 429 url).http_block =
      some "HTTP_429_RATE_LIMIT" ∧
    (detect_all captchaHit ipBanHit content 429 url).ip_ban_detected = true ∧
    (detect_all captchaHit ipBanHit content 429 url).block_type =
      some "HTTP_429_RATE_LIMIT" := by
  cases h : captchaHit content url <;>
    simp [detect_all, detect_http_block, detect_ip_ban, detect_captcha, orKeep, h]

/-- C3, behaviour of the code at the failing input: a plain 404 response with a
two-byte body. fetch returns None (raise_for_status raises, the handler
swallows the exception); neither the response body nor the status code is
surfaced, so the blocking detector has nothing to classify. -/
theorem C3_fetch_404_swallowed :
    fetch true (GetOutcome.response 404 [110, 111]) = Except.ok none := by
  simp [fetch]

/-- Generalisation used to document C3: every 4xx/5xx response makes fetch
return None, never the response or its status code. -/
theorem fetch_client_server_error_none (status : Nat) (content : List Nat)
    (h1 : 400 ≤ status) (h2 : status < 600) :
    fetch true (GetOutcome.response status content) = Except.ok none := by
  simp [fetch, h1, h2]

/-! ### Theorems for C5: deletion cascades -/

/-- C5 counterexample: deleting project P removes its source S1 but S1's
document survives in the documents collection, and deleting source S1 removes
its documents but S1's crawl_stats record survives — so deletion does not
cascade over ownership as claimed. -/
theorem C5_counterexample :
    (delete_project dbC5 pidC5).2.sources = [] ∧
    (delete_project dbC5 pidC5).2.documents = [docC5] ∧
    (delete_source dbC5 sidC5).2.documents = [] ∧
    (delete_source dbC5 sidC5).2.crawl_stats = [statC5] := by
  decide

/-- C5 amended: deletion cascades one level only. delete_project removes the
project and exactly its sources, leaving every document and every crawl_stats
record in place; delete_source removes the source and exactly its documents,
leaving every crawl_stats record in place. -/
theorem C5_delete_one_level (db : DB) (pid sid : String)
    (hp : isValidObjectId pid = true) (hs : isValidObjectId sid = true) :
    ((delete_project db pid).2.projects =
        db.projects.filter (fun p => !(p.id == pid)) ∧
     (delete_project db pid).2.sources =
        db.sources.filter (fun s => !(s.project_id == some pid)) ∧
     (delete_project db pid).2.documents = db.documents ∧
     (delete_project db pid).2.crawl_stats = db.crawl_stats) ∧
    ((delete_source db sid).2.sources =
        db.sources.filter (fun s => !(s.id == sid)) ∧
     (delete_source db sid).2.documents =
        db.documents.filter (fun d => !(d.source_id == sid)) ∧
     (delete_source db sid).2.crawl_stats = db.crawl_stats) := by
  simp [delete_project, delete_source, hp, hs]

/-- C5 witness: the amended statement at the concrete one-project database. -/
theorem C5_delete_one_level_witness :
    ((delete_project dbC5 pidC5).2.projects =
        dbC5.projects.filter (fun p => !(p.id == pidC5)) ∧
     (delete_project dbC5 pidC5).2.sources =
        dbC5.sources.filter (fun s => !(s.project_id == some pidC5)) ∧
     (delete_project dbC5 pidC5).2.documents = dbC5.documents ∧
     (delete_project dbC5 pidC5).2.crawl_stats = dbC5.crawl_stats) ∧
    ((delete_source dbC5 sidC5).2.sources =
        dbC5.sources.filter (fun s => !(s.id == sidC5)) ∧
     (delete_source dbC5 sidC5).2.documents =
        dbC5.documents.filter (fun d => !(d.source_id == sidC5)) ∧
     (delete_source dbC5 sidC5).2.crawl_stats = dbC5.crawl_stats) :=
  C5_delete_one_level dbC5 pidC5 sidC5 (by decide) (by decide)

/-! ### Theorems for C2: duplicate documents in the store phase -/

/-- C2 counterexample: crawling the already-present page leaves the documents
collection unchanged (create_document returned None on the duplicate), yet
documents_stored comes back 1 and the final update adds it to
total_documents, so the duplicate did increment the stored counter. -/
theorem C2_counterexample :
    (crawl_source envC2 dbC2 sidC2).map (fun r =>
        (r.documents_stored, r.db.documents.length,
         (get_source r.db sidC2).map SourceRec.total_documents))
      = Except.ok (1, 1, some 1) ∧
    (create_document dbC2 docC2).1 = none :=
  ⟨rfl, rfl⟩

/-- Counting lemma for the store loop: with no raising results, starting from
stored counter t and pages_crawled c, the loop stores
t + min results.length (max_hits - c) — every non-raising result below the
cutoff counts, duplicate or not. -/
theorem store_loop_count (env : CrawlEnv) (source : SourceRec) :
    ∀ (results : List ParserResult) (db : DB) (t : Nat) (stats : CrawlStatsRec),
      (∀ r ∈ results, env.store_raises r = false) →
      (store_loop env source results db t stats).2.1 =
        t + min results.length (source.config.max_hits - stats.pages_crawled) := by
  intro results
  induction results with
  | nil => intro db t stats _; simp [store_loop]
  | cons r rest ih =>
    intro db t stats hr
    have hr0 : env.store_raises r = false := hr r (by simp)
    have hrest : ∀ x ∈ rest, env.store_raises x = false := by
      intro x hx; exact hr x (by simp [hx])
    by_cases hc : source.config.max_hits ≤ stats.pages_crawled
    · have h0 : source.config.max_hits - stats.pages_crawled = 0 := by omega
      simp [store_loop, hc, h0]
    · have hsd : ∃ db2, store_document env source db r = some db2 := by
        simp [store_document, hr0]
      obtain ⟨db2, hdb2⟩ := hsd
      have hstep : store_loop env source (r :: rest) db t stats =
          store_loop env source rest db2 (t + 1)
            { stats with pages_crawled := stats.pages_crawled + 1 } := by
        simp [store_loop, hc, hdb2]
      rw [hstep, ih _ _ _ hrest]
      simp only [List.length_cons, Nat.min_def]
      split_ifs <;> omega

/-- C2 amended: a duplicate (url, source_id) insert is a success-no-op at the
store level — create_document returns None and leaves the collection
unchanged — but the store loop counts every non-raising result as stored,
duplicates included, so a duplicate does increment the counter that the final
update adds to the Source's total_documents. -/
theorem C2_duplicate_noop_but_counted (db : DB) (d : Document)
    (env : CrawlEnv) (source : SourceRec) (results : List ParserResult)
    (stats : CrawlStatsRec)
    (hdup : db.documents.any
        (fun e => e.url == d.url && e.source_id == d.source_id) = true)
    (hraise : ∀ r ∈ results, env.store_raises r = false) :
    create_document db d = (none, db) ∧
    (store_loop env source results db 0 stats).2.1 =
      min results.length (source.config.max_hits - stats.pages_crawled) := by
  constructor
  · simp [create_document, hdup]
  · rw [store_loop_count env source results db 0 stats hraise]
    omega

/-- C2 witness: the amended statement at the concrete duplicate scenario. -/
theorem C2_duplicate_noop_but_counted_witness :
    create_document dbC2 docC2 = (none, dbC2) ∧
    (store_loop envC2 srcC2 [resC2] dbC2 0 { source_id := sidC2 }).2.1 =
      min ([resC2].length)
        (srcC2.config.max_hits - (CrawlStatsRec.pages_crawled { source_id := sidC2 })) :=
  C2_duplicate_noop_but_counted dbC2 docC2 envC2 srcC2 [resC2]
    { source_id := sidC2 } (by decide) (by decide)

/-! ### Theorems for C6: max_hits bounds the run -/

/-- The store loop performs at most max_hits - pages_crawled stores, whatever
the per-result outcomes are. -/
theorem store_loop_le (env : CrawlEnv) (source : SourceRec) :
    ∀ (results : List ParserResult) (db : DB) (t : Nat) (stats : CrawlStatsRec),
      (store_loop env source results db t stats).2.1 ≤
        t + (source.config.max_hits - stats.pages_crawled) := by
  intro results
  induction results with
  | nil => intro db t stats; simp [store_loop]
  | cons r rest ih =>
    intro db t stats
    by_cases hc : source.config.max_hits ≤ stats.pages_crawled
    · simp [store_loop, hc]
    · cases hsd : store_document env source db r with
      | some db2 =>
        have hstep : store_loop env source (r :: rest) db t stats =
            store_loop env source rest db2 (t + 1)
              { stats with pages_crawled := stats.pages_crawled + 1 } := by
          simp [store_loop, hc, hsd]
        rw [hstep]
        have h2 := ih db2 (t + 1)
          { stats with pages_crawled := stats.pages_crawled + 1 }
        simp only at h2
        omega
      | none =>
        have hstep : store_loop env source (r :: rest) db t stats =
            store_loop env source rest db t
              { stats with
                  pages_failed := stats.pages_failed + 1,
                  errors := stats.errors ++ ["store error"] } := by
          simp [store_loop, hc, hsd]
        rw [hstep]
        have h2 := ih db t
          { stats with
              pages_failed := stats.pages_failed + 1,
              errors := stats.errors ++ ["store error"] }
        simp only at h2
        omega

/-- The traditional loop never grows its result list past max_hits: an append
happens only under the length guard. -/
theorem crawl_traditional_loop_length (env : CrawlEnv) (source : SourceRec) :
    ∀ (fuel : Nat) (db : DB) (toVisit visited : List String)
      (results : List ParserResult) (stats : CrawlStatsRec),
      results.length ≤ source.config.max_hits →
      (crawl_traditional_loop env source fuel db toVisit visited results
          stats).results.length ≤ source.config.max_hits := by
  intro fuel
  induction fuel with
  | zero =>
    intro db toVisit visited results stats h
    simpa [crawl_traditional_loop] using h
  | succ n ih =>
    intro db toVisit visited results stats h
    match toVisit with
    | [] => simpa [crawl_traditional_loop] using h
    | url :: rest =>
      by_cases hlen : results.length < source.config.max_hits
      · by_cases hv : url ∈ visited
        · simpa [crawl_traditional_loop, hlen, hv] using
            ih db rest visited results stats h
        · cases hf : env.fetchUrl url with
          | none =>
            simpa [crawl_traditional_loop, hlen, hv, hf] using
              ih db rest visited results
                { stats with pages_failed := stats.pages_failed + 1 } h
          | some response =>
            cases hb : (detect_all env.captchaHit env.ipBanHit response.content
                response.status_code url).blocked with
            | true =>
              simpa [crawl_traditional_loop, hlen, hv, hf, hb] using h
            | false =>
              cases hp : env.parse source.content_type response.content url with
              | none =>
                simpa [crawl_traditional_loop, hlen, hv, hf, hb, hp] using
                  ih db rest visited results
                    { stats with
                        pages_failed := stats.pages_failed + 1,
                        errors := stats.errors ++ [url ++ ": parse error"] } h
              | some result =>
                have h1 : (results ++ [result]).length ≤ source.config.max_hits := by
                  simp; omega
                simp only [crawl_traditional_loop, hlen, hv, hf, hb, hp,
                  if_true, if_false]
                exact ih db _ _ _ _ h1
      · simpa [crawl_traditional_loop, hlen] using h

/-- The social path returns at most max_hits results: the final truncation. -/
theorem crawl_social_media_length (env : CrawlEnv) (source : SourceRec)
    (stats : CrawlStatsRec) :
    (crawl_social_media env source stats).1.length ≤ source.config.max_hits := by
  unfold crawl_social_media
  cases env.fetchUrl source.url with
  | none => simp
  | some response =>
    cases hp : social_parse env source response with
    | none => simp [hp]
    | some r =>
      simp only [hp, result_has_items]
      simp [List.length_take]

/-- C6: a run stores at most config.max_hits documents — the store phase stops
once the crawled counter reaches max_hits, the traditional loop collects at
most max_hits results, and the social path truncates its result list to
max_hits. -/
theorem C6_stored_le_max_hits (env : CrawlEnv) (db db0 : DB) (sid : String)
    (source : SourceRec) (r : RunResult) (fuel : Nat)
    (toVisit visited : List String) (results0 : List ParserResult)
    (stats0 stats1 : CrawlStatsRec)
    (hs : get_source db sid = some source)
    (hr : crawl_source env db sid = Except.ok r)
    (hlen : results0.length ≤ source.config.max_hits) :
    r.documents_stored ≤ source.config.max_hits ∧
    (crawl_traditional_loop env source fuel db0 toVisit visited results0
        stats0).results.length ≤ source.config.max_hits ∧
    (crawl_social_media env source stats1).1.length ≤ source.config.max_hits := by
  refine ⟨?_,
    crawl_traditional_loop_length env source fuel db0 toVisit visited results0
      stats0 hlen,
    crawl_social_media_length env source stats1⟩
  have key : ∀ out : TradOutcome,
      (run_store env source out).2.1 ≤ source.config.max_hits := by
    intro out
    have h2 := store_loop_le env source out.results out.db 0 out.stats
    unfold run_store
    omega
  simp only [crawl_source, hs, Except.ok.injEq] at hr
  rw [← hr]
  exact key _

/-- C6 witness: the bounds at the concrete one-page scenario. -/
theorem C6_stored_le_max_hits_witness :
    rC6.documents_stored ≤ srcC6.config.max_hits ∧
    (crawl_traditional_loop envC6 srcC6 5 {} [srcC6.url] [] []
        { source_id := sidC6 }).results.length ≤ srcC6.config.max_hits ∧
    (crawl_social_media envC6 srcC6 { source_id := sidC6 }).1.length ≤
      srcC6.config.max_hits :=
  C6_stored_le_max_hits envC6 dbC6 {} sidC6 srcC6 rC6 5 [srcC6.url] [] []
    { source_id := sidC6 } { source_id := sidC6 } (by decide) rfl (by decide)

/-! ### Theorem for C1: the blocked status does not survive the run -/

/-- C1, behaviour of the code at the failing input: when the blocking
detector classifies the fetched response as blocked, the loop does write
status blocked with its last_error and abandons the run — but the
unconditional completion update of crawl_source then overwrites the
persisted status with completed and clears last_error, so the source does
not stay quarantined. The update trace shows running, then blocked, then
completed with last_error cleared, and the record persisted at the end of
the run reads completed with no last_error while the run statistics still
carry the block error. -/
theorem C1_blocked_overwritten_eval :
    (crawl_source envC1 dbC1 sidC1).map (fun r =>
        (r.updates.map (fun u => (u.status, u.last_error)),
         (get_source r.db sidC1).map (fun s => (s.status, s.last_error)),
         r.stats.errors))
      = Except.ok
          ([(some CrawlStatus.running, none),
            (some CrawlStatus.blocked,
             some (some "Blocked: HTTP_429_RATE_LIMIT")),
            (some CrawlStatus.completed, some none)],
           some (CrawlStatus.completed, none),
           ["Blocked: HTTP_429_RATE_LIMIT"]) := rfl

/-! ### Theorem for C4: the detected next page is never enqueued -/

/-- C4, behaviour of the code at the failing input: _detect_next_page does
find the next page URL from the rel next anchor (absolutising the
root-relative href), and html_parser.parse stores it in custom_metadata —
but the guard of _crawl_traditional reads a next_page attribute that
ParserResult never defines, so nothing is enqueued: with follow_links on and
max_hits ten, the run stores only page one although page two would fetch and
parse fine. -/
theorem C4_next_page_dropped_eval :
    detect_next_page [anchorC4] page1C4 = some page2C4 ∧
    res1C4.custom_metadata = [("next_page", page2C4)] ∧
    result_next_page res1C4 = none ∧
    (crawl_source envC4 dbC4 sidC4).map (fun r =>
        (r.db.documents.map Document.url, r.documents_stored))
      = Except.ok ([page1C4], 1) :=
  ⟨by decide, rfl, rfl, rfl⟩

/-! ### Theorem for C8: the overlap guard races -/

/-- C8, behaviour of the code at the failing input: the guard read and the
mark write of _crawl_job are two separate operations on the unlocked
active_crawls dictionary, executed by distinct worker threads. In the
interleaving where both invocations for the same source perform the guard
read before either performs the mark write, both reads see False, both jobs
proceed, and two crawl runs for the one source are active at the same
instant — despite the docstring of _crawl_job and spec section 5, which
promise overlap prevention. The second and third conjuncts show the guard
behaving as intended when the second check is serialised after the first
mark: the second invocation returns immediately without crawling. -/
theorem C8_guard_race_eval :
    ((run_pool poolRace0 [0, 1, 0, 1]).jobs.filter
        (fun j => j.phase == JobPhase.inCrawl)).length = 2 ∧
    ((run_pool poolRace0 [0, 0, 1]).jobs.filter
        (fun j => j.phase == JobPhase.inCrawl)).length = 1 ∧
    (run_pool poolRace0 [0, 0, 1]).jobs[1]? =
      some { source_id := "a", phase := JobPhase.done } := by
  decide


/-! ### Theorems for C10: manual trigger without existence check -/

/-- C10: trigger_source_crawl never consults the source store — for every id
not marked active, also one for which no Source record exists, it returns
True and enqueues the one-shot job; the missing-source error only arises
later, when crawl_source loads the source inside the background job. -/
theorem C10_trigger_without_existence (env : CrawlEnv) (db : DB)
    (s : SchedState) (sid : String)
    (hact : sid ∉ s.active_crawls)
    (hmiss : get_source db sid = none) :
    (trigger_source_crawl s sid).1 = true ∧
    sid ∈ (trigger_source_crawl s sid).2.pending ∧
    crawl_source env db sid = Except.error ("Source not found: " ++ sid) := by
  refine ⟨?_, ?_, ?_⟩
  · simp [trigger_source_crawl, hact]
  · simp [trigger_source_crawl, hact]
  · simp [crawl_source, hmiss]

/-! ### Theorems for C9: snippet generation -/

/-- Where str.find answers, the pattern is present. -/
theorem strFind_some_prefixAt (pat : List Char) :
    ∀ (t : List Char) (p : Nat), strFind t pat = some p →
      pat.isPrefixOf (t.drop p) = true := by
  intro t
  induction t with
  | nil =>
    intro p h
    by_cases hp : pat.isPrefixOf [] = true
    · simp [strFind, hp] at h
      subst h
      simpa using hp
    · simp [strFind, hp] at h
  | cons c t2 ih =>
    intro p h
    by_cases hp : pat.isPrefixOf (c :: t2) = true
    · simp [strFind, hp] at h
      subst h
      simpa using hp
    · simp [strFind, hp] at h
      obtain ⟨q, hq, hqp⟩ := h
      subst hqp
      simpa using ih q hq

/-- str.find answers the first occurrence: nothing earlier matches. -/
theorem strFind_some_least (pat : List Char) :
    ∀ (t : List Char) (p : Nat), strFind t pat = some p →
      ∀ q, q < p → pat.isPrefixOf (t.drop q) = false := by
  intro t
  induction t with
  | nil =>
    intro p h q hq
    by_cases hp : pat.isPrefixOf [] = true
    · simp [strFind, hp] at h
      omega
    · simp [strFind, hp] at h
  | cons c t2 ih =>
    intro p h q hq
    by_cases hp : pat.isPrefixOf (c :: t2) = true
    · simp [strFind, hp] at h
      omega
    · simp [strFind, hp] at h
      obtain ⟨r, hr, hrp⟩ := h
      subst hrp
      match q with
      | 0 =>
        simp only [List.drop_zero]
        exact Bool.eq_false_iff.mpr hp
      | q2 + 1 => simpa using ih r hr q2 (by omega)

/-- Where str.find returns -1, the pattern occurs nowhere. -/
theorem strFind_none_noOcc (pat : List Char) :
    ∀ (t : List Char), strFind t pat = none →
      ∀ q, pat.isPrefixOf (t.drop q) = false := by
  intro t
  induction t with
  | nil =>
    intro h q
    by_cases hp : pat.isPrefixOf [] = true
    · simp [strFind, hp] at h
    · simp only [List.drop_nil]
      exact Bool.eq_false_iff.mpr hp
  | cons c t2 ih =>
    intro h q
    by_cases hp : pat.isPrefixOf (c :: t2) = true
    · simp [strFind, hp] at h
    · simp [strFind, hp] at h
      match q with
      | 0 =>
        simp only [List.drop_zero]
        exact Bool.eq_false_iff.mpr hp
      | q2 + 1 => simpa using ih h q2

/-- When the best_pos scan finds nothing, neither the accumulator nor any
keyword had a position. -/
theorem best_pos_none_spec (tl : List Char) :
    ∀ (kws : List (List Char)) (best : Option Nat),
      best_pos tl kws best = none →
      best = none ∧ ∀ kw ∈ kws, strFind tl kw = none := by
  intro kws
  induction kws with
  | nil =>
    intro best h
    simp [best_pos] at h
    simp [h]
  | cons kw kws ih =>
    intro best h
    rw [best_pos] at h
    obtain ⟨hacc, hall⟩ := ih _ h
    cases hf : strFind tl kw with
    | none =>
      rw [hf] at hacc
      refine ⟨hacc, ?_⟩
      intro kw2 hkw2
      rcases List.mem_cons.mp hkw2 with h1 | h2
      · subst h1; exact hf
      · exact hall kw2 h2
    | some pos =>
      exfalso
      rw [hf] at hacc
      cases best with
      | none => simp at hacc
      | some b => by_cases hlt : pos < b <;> simp [hlt] at hacc

/-- When the best_pos scan answers p, then p came from the accumulator or
from some keyword's first occurrence, and p is a lower bound for the
accumulator and for every keyword's first occurrence. -/
theorem best_pos_some_spec (tl : List Char) :
    ∀ (kws : List (List Char)) (best : Option Nat) (p : Nat),
      best_pos tl kws best = some p →
      (best = some p ∨ ∃ kw ∈ kws, strFind tl kw = some p) ∧
      (∀ b, best = some b → p ≤ b) ∧
      (∀ kw ∈ kws, ∀ r, strFind tl kw = some r → p ≤ r) := by
  intro kws
  induction kws with
  | nil =>
    intro best p h
    simp [best_pos] at h
    refine ⟨Or.inl h, ?_, by simp⟩
    intro b hb
    rw [h] at hb
    simp at hb
    omega
  | cons kw kws ih =>
    intro best p h
    rw [best_pos] at h
    obtain ⟨hsrc, hlb, hall⟩ := ih _ p h
    cases hf : strFind tl kw with
    | none =>
      rw [hf] at hsrc hlb
      refine ⟨?_, hlb, ?_⟩
      · rcases hsrc with h1 | ⟨kw2, hkw2, hfk⟩
        · exact Or.inl h1
        · exact Or.inr ⟨kw2, List.mem_cons_of_mem kw hkw2, hfk⟩
      · intro kw2 hkw2 r hr
        rcases List.mem_cons.mp hkw2 with h1 | h2
        · subst h1; rw [hf] at hr; cases hr
        · exact hall kw2 h2 r hr
    | some pos =>
      rw [hf] at hsrc hlb
      cases best with
      | none =>
        have hppos : p ≤ pos := hlb pos rfl
        refine ⟨?_, by simp, ?_⟩
        · rcases hsrc with h1 | ⟨kw2, hkw2, hfk⟩
          · exact Or.inr ⟨kw, List.mem_cons_self kw kws, by
              rw [hf]; simpa using h1⟩
          · exact Or.inr ⟨kw2, List.mem_cons_of_mem kw hkw2, hfk⟩
        · intro kw2 hkw2 r hr
          rcases List.mem_cons.mp hkw2 with h1 | h2
          · subst h1; rw [hf] at hr
            have : pos = r := by simpa using hr
            omega
          · exact hall kw2 h2 r hr
      | some b0 =>
        by_cases hlt : pos < b0
        · simp only [if_pos hlt] at hsrc hlb
          have hppos : p ≤ pos := hlb pos rfl
          refine ⟨?_, ?_, ?_⟩
          · rcases hsrc with h1 | ⟨kw2, hkw2, hfk⟩
            · exact Or.inr ⟨kw, List.mem_cons_self kw kws, by
                rw [hf]; simpa using h1⟩
            · exact Or.inr ⟨kw2, List.mem_cons_of_mem kw hkw2, hfk⟩
          · intro b hb
            have : b0 = b := by simpa using hb
            omega
          · intro kw2 hkw2 r hr
            rcases List.mem_cons.mp hkw2 with h1 | h2
            · subst h1; rw [hf] at hr
              have : pos = r := by simpa using hr
              omega
            · exact hall kw2 h2 r hr
        · simp only [if_neg hlt] at hsrc hlb
          have hpb : p ≤ b0 := hlb b0 rfl
          refine ⟨?_, ?_, ?_⟩
          · rcases hsrc with h1 | ⟨kw2, hkw2, hfk⟩
            · exact Or.inl (by simpa using h1)
            · exact Or.inr ⟨kw2, List.mem_cons_of_mem kw hkw2, hfk⟩
          · intro b hb
            have : b0 = b := by simpa using hb
            omega
          · intro kw2 hkw2 r hr
            rcases List.mem_cons.mp hkw2 with h1 | h2
            · subst h1; rw [hf] at hr
              have : pos = r := by simpa using hr
              omega
            · exact hall kw2 h2 r hr

/-- C9: for non-empty cleaned text, _generate_snippet lowercases text and
query, splits the query on whitespace, and (first conjunct) when no term
occurs anywhere it returns the first max_length characters of the text with
a trailing ellipsis exactly when that truncates the text; (second conjunct)
when a term occurs, the scan position p carries an occurrence of some term
and no occurrence of any term lies earlier, and the snippet is the window of
the text from p - max_length/2 to min length (p + max_length/2) — at most
max_length characters, centred on p — with an ellipsis at an end exactly
when text is cut off at that end. -/
theorem C9_snippet (text keywords : List Char) (max_length : Nat)
    (hne : text ≠ []) :
    (best_pos (lowerChars text) (splitWs (lowerChars keywords)) none = none →
      (∀ kw ∈ splitWs (lowerChars keywords), ∀ q,
          kw.isPrefixOf ((lowerChars text).drop q) = false) ∧
      generate_snippet text keywords max_length =
        text.take max_length ++
          (if max_length < text.length then dots else [])) ∧
    (∀ p,
      best_pos (lowerChars text) (splitWs (lowerChars keywords)) none = some p →
      (∃ kw ∈ splitWs (lowerChars keywords),
          kw.isPrefixOf ((lowerChars text).drop p) = true) ∧
      (∀ kw ∈ splitWs (lowerChars keywords), ∀ q,
          kw.isPrefixOf ((lowerChars text).drop q) = true → p ≤ q) ∧
      generate_snippet text keywords max_length =
        (if 0 < p - max_length / 2 then dots else []) ++
          (text.drop (p - max_length / 2)).take
            (min text.length (p + max_length / 2) - (p - max_length / 2)) ++
          (if min text.length (p + max_length / 2) < text.length then dots
           else []) ∧
      ((text.drop (p - max_length / 2)).take
          (min text.length (p + max_length / 2) - (p - max_length / 2))).length
        ≤ max_length) := by
  constructor
  · intro h
    obtain ⟨-, hall⟩ := best_pos_none_spec (lowerChars text)
      (splitWs (lowerChars keywords)) none h
    refine ⟨?_, ?_⟩
    · intro kw hkw q
      exact strFind_none_noOcc kw (lowerChars text) (hall kw hkw) q
    · simp [generate_snippet, hne, h]
  · intro p h
    obtain ⟨hsrc, -, hall⟩ := best_pos_some_spec (lowerChars text)
      (splitWs (lowerChars keywords)) none p h
    have hocc : ∃ kw ∈ splitWs (lowerChars keywords),
        kw.isPrefixOf ((lowerChars text).drop p) = true := by
      rcases hsrc with h1 | ⟨kw, hkw, hfk⟩
      · cases h1
      · exact ⟨kw, hkw, strFind_some_prefixAt kw (lowerChars text) p hfk⟩
    refine ⟨hocc, ?_, ?_, ?_⟩
    · intro kw hkw q hq
      cases hfk : strFind (lowerChars text) kw with
      | none =>
        rw [strFind_none_noOcc kw (lowerChars text) hfk q] at hq
        simp at hq
      | some r =>
        have hpr : p ≤ r := hall kw hkw r hfk
        have hrq : r ≤ q := by
          by_contra hcon
          rw [strFind_some_least kw (lowerChars text) r hfk q (by omega)] at hq
          simp at hq
        omega
    · simp only [generate_snippet, hne, h]
      split_ifs <;> first | contradiction | simp
    · rw [List.length_take, List.length_drop]
      simp only [Nat.min_def]
      split_ifs <;> omega

/-- C9 witness: on abcdef with query CD and max_length two, the snippet is
the two-character window on the earliest (case-insensitive) occurrence with
both ellipses, the occurrence really sits at position two, and with the
no-hit query zz the snippet is the two-character head plus the trailing
ellipsis. -/
theorem C9_snippet_witness :
    generate_snippet textC9 kwC9 2 = String.toList "...bc..." ∧
    (∃ kw ∈ splitWs (lowerChars kwC9),
        kw.isPrefixOf ((lowerChars textC9).drop 2) = true) ∧
    generate_snippet textC9 kwNoC9 2 =
      textC9.take 2 ++ (if 2 < textC9.length then dots else []) :=
  ⟨((C9_snippet textC9 kwC9 2 (by decide)).2 2 (by decide)).2.2.1,
   ((C9_snippet textC9 kwC9 2 (by decide)).2 2 (by decide)).1,
   ((C9_snippet textC9 kwNoC9 2 (by decide)).1 (by decide)).2⟩

/-- C10 witness: an idle scheduler, an empty database and an id that names no
source. -/
theorem C10_trigger_without_existence_witness :
    (trigger_source_crawl {} "9999aaaa9999aaaa9999aaaa").1 = true ∧
    "9999aaaa9999aaaa9999aaaa" ∈
      (trigger_source_crawl {} "9999aaaa9999aaaa9999aaaa").2.pending ∧
    crawl_source envC10 {} "9999aaaa9999aaaa9999aaaa" =
      Except.error ("Source not found: " ++ "9999aaaa9999aaaa9999aaaa") :=
  C10_trigger_without_existence envC10 {} {} "9999aaaa9999aaaa9999aaaa"
    (by decide) (by decide)

end WA
